import Mathlib

/-!
Verification development for the quiz application in `src/quiz_app.py`.

The program is a Streamlit script.  We embed it shallowly:

* `St` is the per-browser-session state `st.session_state` (fields
  `csv_file`, `shuffled_df`, `current_question`, `answered`,
  `selected_answer`, `score`) together with the persisted widget state of
  the radio control keyed `"radio_answer"` (`radio`: the option strings it
  was built from and the chosen letter; `none` when the widget was not
  rendered in the latest run, in which case Streamlit drops its state).
* `runScript` is one top-to-bottom run of the script (`main`), given which
  button was clicked this run (`Click`).  It returns the new state, the
  user-visible output produced (load error banner or the submit feedback)
  and whether `st.rerun()` was requested.
* `step` is one user interaction (an `Event`): the run it triggers plus the
  single follow-up run when `st.rerun()` was requested (a follow-up run has
  no click and never requests another rerun).  Changing the radio choice
  first executes the `on_choice_change` callback and updates the widget
  value, then reruns the script.
* Loading (`load_questions`, an `st.cache_data` pandas read) is an external
  collaborator: a function `bank : Nat → Option (List Question)`; `none`
  models a missing or unparseable CSV, where the script shows an error and
  stops (`st.stop`).  The `df.sample(frac=1)` shuffle is an injected
  function `shuffle : List Question → List Question`; the random draw is a
  permutation, which theorems assume where needed.
-/

namespace QuizApp

inductive Label
  | A
  | B
  | C
deriving DecidableEq, Repr

structure Question where
  text : String
  optionA : String
  optionB : String
  optionC : String
  correctAnswer : Label
  explanation : String
deriving DecidableEq, Repr

/-- The session state of the script plus the radio widget's persisted state. -/
structure St where
  csv_file : Option Nat
  shuffled_df : Option (List Question)
  current_question : Nat
  answered : Bool
  selected_answer : Option Label
  score : Nat
  radio : Option (List String × Label)
deriving DecidableEq, Repr

/-- The bootstrapping at the bottom of `quiz_app.py`: every session variable
initialised to its unset value; no widget rendered yet. -/
def initSt : St :=
  { csv_file := none, shuffled_df := none, current_question := 0,
    answered := false, selected_answer := none, score := 0, radio := none }

/-- The feedback block shown when Submit is processed (lines 125-142):
the question text rendered above it, whether the stored selection matched
`correctAnswer`, and the explanation shown by `st.info`. -/
structure Feedback where
  text : String
  correct : Bool
  explanation : String
deriving DecidableEq, Repr

inductive Output
  | loadError
  | feedback (fb : Feedback)
deriving DecidableEq, Repr

/-- Which button, if any, was clicked in a given script run. -/
inductive Click
  | noClick
  | chapter (ch : Nat)
  | submit
  | nextQ
  | backToMenu
deriving DecidableEq, Repr

/-- The three radio labels built for a question (lines 85-90). -/
def questionLabels (q : Question) : List String :=
  ["A) " ++ q.optionA, "B) " ++ q.optionB, "C) " ++ q.optionC]

/-- The value the radio widget shows when rendered with option list `ls`:
the persisted value when the widget was already built from the same option
list, otherwise the default `index=0`, letter `A` (a keyed widget whose
options changed is a fresh widget and resets to its default). -/
def radioValue (r : Option (List String × Label)) (ls : List String) : Label :=
  match r with
  | some (p, v) => if p = ls then v else Label.A
  | none => Label.A

/-- `shuffled_df.loc[q_idx, ...]` row access; only used under the
`q_idx < len(shuffled_df)` guard, so the fallback row is never read. -/
def getQ (qs : List Question) (i : Nat) : Question :=
  qs.getD i { text := "", optionA := "", optionB := "", optionC := "",
              correctAnswer := Label.A, explanation := "" }

/-- The field assignments both "Back to Main Menu" handlers perform
(lines 62-68 and 156-162): every session variable except `shuffled_df`. -/
def resetFields (s : St) : St :=
  { s with csv_file := none, current_question := 0, answered := false,
           selected_answer := none, score := 0 }

/-- The body of `quiz()` after `shuffled_df` is available, for one run with
click `c`.  `qs` is the content of `s.shuffled_df`.  Either the finished
page (lines 57-69) or the question page: the radio is rendered and
`selected_answer` assigned (lines 103-111), then the clicked button's block
runs (Submit lines 120-145, Next lines 148-151, Back lines 156-162). -/
def runQuiz (c : Click) (s : St) (qs : List Question) :
    St × Option Output × Bool :=
  if s.current_question < qs.length then
    let q := getQ qs s.current_question
    let ls := questionLabels q
    let v := radioValue s.radio ls
    let s1 := { s with radio := some (ls, v), selected_answer := some v }
    match c with
    | Click.submit =>
      if s1.answered then (s1, none, false)
      else
        ({ s1 with answered := true,
                   current_question := s1.current_question + 1,
                   score := s1.score + (if v = q.correctAnswer then 1 else 0) },
         some (Output.feedback
           { text := q.text, correct := decide (v = q.correctAnswer),
             explanation := q.explanation }),
         false)
    | Click.nextQ =>
      if s1.answered then ({ s1 with selected_answer := none }, none, true)
      else (s1, none, false)
    | Click.backToMenu => (resetFields s1, none, true)
    | _ => (s1, none, false)
  else
    let s1 := { s with radio := none }
    match c with
    | Click.backToMenu => (resetFields s1, none, true)
    | _ => (s1, none, false)

/-- One top-to-bottom run of the script (`main`, lines 164-256).  With no
chapter chosen, the menu: a chapter button sets the session fields and
reruns (lines 172-178), otherwise `st.stop`.  With a chapter chosen,
`quiz()`: load-and-shuffle once if `shuffled_df` is absent (lines 48-51,
with `st.error`/`st.stop` on a failed load, lines 10-15), then the quiz
body.  The radio's widget state is dropped by any run that does not render
it. -/
def runScript (bank : Nat → Option (List Question))
    (shuffle : List Question → List Question) (c : Click) (s : St) :
    St × Option Output × Bool :=
  match s.csv_file with
  | none =>
    match c with
    | Click.chapter ch =>
      ({ s with csv_file := some ch, current_question := 0, answered := false,
                selected_answer := none, score := 0, radio := none },
       none, true)
    | _ => ({ s with radio := none }, none, false)
  | some ch =>
    match s.shuffled_df with
    | some qs => runQuiz c s qs
    | none =>
      match bank ch with
      | none => ({ s with radio := none }, some Output.loadError, false)
      | some df =>
        runQuiz c { s with shuffled_df := some (shuffle df) } (shuffle df)

/-- A user interaction: which chapter button, radio change, or quiz button
was activated. -/
inductive Event
  | selectChapter (ch : Nat)
  | changeChoice (l : Label)
  | clickSubmit
  | clickNext
  | clickBack
deriving DecidableEq, Repr

def eventClick : Event → Click
  | Event.selectChapter ch => Click.chapter ch
  | Event.changeChoice _ => Click.noClick
  | Event.clickSubmit => Click.submit
  | Event.clickNext => Click.nextQ
  | Event.clickBack => Click.backToMenu

/-- One user interaction processed to quiescence.  A radio change only
exists while the radio is rendered and the value actually changes; it runs
`on_choice_change` (sets `answered = False`, lines 99-101), stores the new
widget value, and triggers a plain rerun.  A button click runs the script
once, plus the follow-up run when `st.rerun()` was called. -/
def step (bank : Nat → Option (List Question))
    (shuffle : List Question → List Question) (ev : Event) (s : St) :
    St × List Output :=
  match ev with
  | Event.changeChoice l =>
    match s.radio with
    | some (ls, v) =>
      if v = l then (s, [])
      else
        let r := runScript bank shuffle Click.noClick
          { s with answered := false, radio := some (ls, l) }
        (r.1, r.2.1.toList)
    | none => (s, [])
  | _ =>
    let r := runScript bank shuffle (eventClick ev) s
    if r.2.2 then
      let r2 := runScript bank shuffle Click.noClick r.1
      (r2.1, r.2.1.toList ++ r2.2.1.toList)
    else (r.1, r.2.1.toList)

def stepS (bank : Nat → Option (List Question))
    (shuffle : List Question → List Question) (ev : Event) (s : St) : St :=
  (step bank shuffle ev s).1

def steps (bank : Nat → Option (List Question))
    (shuffle : List Question → List Question) (evs : List Event) (s : St) :
    St :=
  evs.foldl (fun t ev => stepS bank shuffle ev t) s

/-! Concrete fixtures for counterexamples and witnesses: a two-question
chapter 1, a one-question chapter 2, and no other chapter. -/

def q1 : Question :=
  { text := "Q1", optionA := "a1", optionB := "b1", optionC := "c1",
    correctAnswer := Label.A, explanation := "E1" }

def q2 : Question :=
  { text := "Q2", optionA := "a2", optionB := "b2", optionC := "c2",
    correctAnswer := Label.B, explanation := "E2" }

def q3 : Question :=
  { text := "Q3", optionA := "a3", optionB := "b3", optionC := "c3",
    correctAnswer := Label.C, explanation := "E3" }

def bank0 : Nat → Option (List Question) := fun ch =>
  if ch = 1 then some [q1, q2] else if ch = 2 then some [q3] else none

/-! General lemmas about runs and events. -/

/-- Fields a run without a click never changes: a follow-up (rerun) run is
pure rendering plus the once-per-session load. -/
theorem runScript_noClick_frame (bank : Nat → Option (List Question))
    (shuffle : List Question → List Question) (s : St) :
    (runScript bank shuffle Click.noClick s).1.csv_file = s.csv_file ∧
    (runScript bank shuffle Click.noClick s).1.current_question
      = s.current_question ∧
    (runScript bank shuffle Click.noClick s).1.answered = s.answered ∧
    (runScript bank shuffle Click.noClick s).1.score = s.score ∧
    (runScript bank shuffle Click.noClick s).2.2 = false := by
  rcases s with ⟨csv, df, pos, ans, sel, sc, rad⟩
  cases csv with
  | none => simp [runScript]
  | some ch =>
    cases df with
    | some qs =>
      simp only [runScript, runQuiz]
      split <;> simp
    | none =>
      cases hb : bank ch with
      | none => simp [runScript, hb]
      | some df =>
        simp only [runScript, hb, runQuiz]
        split <;> simp

def qlen (s : St) : Nat := (s.shuffled_df.getD []).length

/-- The score/position invariant, with the auxiliary fact that before the
once-per-session shuffle has happened the position is still 0. -/
def Inv (s : St) : Prop :=
  s.score ≤ s.current_question ∧ s.current_question ≤ qlen s ∧
    (s.shuffled_df = none → s.current_question = 0)

theorem runQuiz_inv (c : Click) (s : St) (qs : List Question)
    (hdf : s.shuffled_df = some qs)
    (h1 : s.score ≤ s.current_question)
    (h2 : s.current_question ≤ qs.length) :
    Inv (runQuiz c s qs).1 := by
  unfold runQuiz
  split
  case isTrue h =>
    cases c <;>
      simp_all [Inv, qlen, resetFields, hdf] <;>
      split_ifs <;> simp_all [hdf] <;> omega
  case isFalse h =>
    cases c <;> simp_all [Inv, qlen, resetFields, hdf]

theorem runScript_inv (bank : Nat → Option (List Question))
    (shuffle : List Question → List Question) (c : Click) (s : St)
    (h : Inv s) : Inv (runScript bank shuffle c s).1 := by
  obtain ⟨h1, h2, h3⟩ := h
  rcases s with ⟨csv, df, pos, ans, sel, sc, rad⟩
  cases csv with
  | none =>
    cases c <;> simp_all [runScript, Inv, qlen]
  | some ch =>
    cases df with
    | some qs =>
      exact runQuiz_inv c _ qs rfl h1 h2
    | none =>
      have hpos : pos = 0 := h3 rfl
      cases hb : bank ch with
      | none => simp_all [runScript, hb, Inv, qlen]
      | some df =>
        simp only [runScript, hb]
        refine runQuiz_inv c _ (shuffle df) rfl h1 ?_
        simp [hpos]

theorem step_inv (bank : Nat → Option (List Question))
    (shuffle : List Question → List Question) (ev : Event) (s : St)
    (h : Inv s) : Inv (stepS bank shuffle ev s) := by
  cases ev with
  | changeChoice l =>
    unfold stepS step
    cases hr : s.radio with
    | none => simpa using h
    | some p =>
      rcases p with ⟨ls, v⟩
      by_cases hv : v = l
      · simpa [hr, hv] using h
      · simp only [hr, hv, if_false]
        exact runScript_inv bank shuffle _ _ (by simpa [Inv, qlen] using h)
  | selectChapter ch =>
    unfold stepS step eventClick
    simp only
    split
    · exact runScript_inv bank shuffle _ _
        (runScript_inv bank shuffle _ _ h)
    · exact runScript_inv bank shuffle _ _ h
  | clickSubmit =>
    unfold stepS step eventClick
    simp only
    split
    · exact runScript_inv bank shuffle _ _
        (runScript_inv bank shuffle _ _ h)
    · exact runScript_inv bank shuffle _ _ h
  | clickNext =>
    unfold stepS step eventClick
    simp only
    split
    · exact runScript_inv bank shuffle _ _
        (runScript_inv bank shuffle _ _ h)
    · exact runScript_inv bank shuffle _ _ h
  | clickBack =>
    unfold stepS step eventClick
    simp only
    split
    · exact runScript_inv bank shuffle _ _
        (runScript_inv bank shuffle _ _ h)
    · exact runScript_inv bank shuffle _ _ h

theorem steps_inv (bank : Nat → Option (List Question))
    (shuffle : List Question → List Question) (evs : List Event) (s : St)
    (h : Inv s) : Inv (steps bank shuffle evs s) := by
  induction evs generalizing s with
  | nil => exact h
  | cons ev evs ih => exact ih _ (step_inv bank shuffle ev s h)

theorem Inv_initSt : Inv initSt := by
  refine ⟨Nat.le_refl 0, Nat.zero_le _, fun _ => rfl⟩

/-- While a chapter is selected and its question list is loaded with the
position on a question, the stored selected answer is set (line 111 assigns
it on every run that renders a question). -/
def SelSet (s : St) : Prop :=
  ∀ qs : List Question, s.csv_file ≠ none → s.shuffled_df = some qs →
    s.current_question < qs.length → s.selected_answer ≠ none

theorem runQuiz_selset (c : Click) (s : St) (qs : List Question)
    (hdf : s.shuffled_df = some qs)
    (hr : (runQuiz c s qs).2.2 = false) :
    SelSet (runQuiz c s qs).1 := by
  by_cases hlen : s.current_question < qs.length
  · cases c <;>
      simp only [runQuiz, hlen, if_true, reduceIte] at hr ⊢ <;>
      intro qs2 hcsv hdf2 hlt <;>
      first
        | (split_ifs at hr ⊢ <;> simp_all)
        | simp_all
  · cases c <;>
      simp only [runQuiz, hlen, if_false, reduceIte] at hr ⊢ <;>
      intro qs2 hcsv hdf2 hlt <;>
      simp_all <;> omega

theorem runScript_selset (bank : Nat → Option (List Question))
    (shuffle : List Question → List Question) (c : Click) (s : St)
    (hr : (runScript bank shuffle c s).2.2 = false) :
    SelSet (runScript bank shuffle c s).1 := by
  rcases s with ⟨csv, df, pos, ans, sel, sc, rad⟩
  cases csv with
  | none =>
    cases c with
    | chapter ch => simp [runScript] at hr
    | noClick => intro qs2 hcsv _ _; simp [runScript] at hcsv
    | submit => intro qs2 hcsv _ _; simp [runScript] at hcsv
    | nextQ => intro qs2 hcsv _ _; simp [runScript] at hcsv
    | backToMenu => intro qs2 hcsv _ _; simp [runScript] at hcsv
  | some ch =>
    cases df with
    | some qs => exact runQuiz_selset c _ qs rfl hr
    | none =>
      cases hb : bank ch with
      | none =>
        simp only [runScript, hb]
        intro qs2 hcsv hdf2 hlt
        simp at hdf2
      | some df =>
        simp only [runScript, hb] at hr ⊢
        exact runQuiz_selset c _ (shuffle df) rfl hr

theorem step_selset (bank : Nat → Option (List Question))
    (shuffle : List Question → List Question) (ev : Event) (s : St)
    (h : SelSet s) : SelSet (stepS bank shuffle ev s) := by
  cases ev with
  | changeChoice l =>
    simp only [stepS, step]
    cases hr : s.radio with
    | none => exact h
    | some p =>
      rcases p with ⟨ls, v⟩
      by_cases hv : v = l
      · simpa [hv] using h
      · simp only [hv, if_false, reduceIte]
        exact runScript_selset bank shuffle Click.noClick _
          ((runScript_noClick_frame bank shuffle _).2.2.2.2)
  | selectChapter ch =>
    simp only [stepS, step]
    split
    · exact runScript_selset bank shuffle Click.noClick _
        ((runScript_noClick_frame bank shuffle _).2.2.2.2)
    · next h2 =>
      exact runScript_selset bank shuffle _ _ (by simpa using h2)
  | clickSubmit =>
    simp only [stepS, step]
    split
    · exact runScript_selset bank shuffle Click.noClick _
        ((runScript_noClick_frame bank shuffle _).2.2.2.2)
    · next h2 =>
      exact runScript_selset bank shuffle _ _ (by simpa using h2)
  | clickNext =>
    simp only [stepS, step]
    split
    · exact runScript_selset bank shuffle Click.noClick _
        ((runScript_noClick_frame bank shuffle _).2.2.2.2)
    · next h2 =>
      exact runScript_selset bank shuffle _ _ (by simpa using h2)
  | clickBack =>
    simp only [stepS, step]
    split
    · exact runScript_selset bank shuffle Click.noClick _
        ((runScript_noClick_frame bank shuffle _).2.2.2.2)
    · next h2 =>
      exact runScript_selset bank shuffle _ _ (by simpa using h2)

theorem steps_selset (bank : Nat → Option (List Question))
    (shuffle : List Question → List Question) (evs : List Event) (s : St)
    (h : SelSet s) : SelSet (steps bank shuffle evs s) := by
  induction evs generalizing s with
  | nil => exact h
  | cons ev evs ih => exact ih _ (step_selset bank shuffle ev s h)

theorem SelSet_initSt : SelSet initSt := by
  intro qs hcsv _ _
  exact absurd rfl hcsv

/-- The only place a run moves `current_question` up by one is the Submit
block, which also sets `answered = True` (lines 120-123). -/
theorem runScript_advance (bank : Nat → Option (List Question))
    (shuffle : List Question → List Question) (c : Click) (s : St)
    (h : (runScript bank shuffle c s).1.current_question
      = s.current_question + 1) :
    (runScript bank shuffle c s).1.answered = true := by
  rcases s with ⟨csv, df, pos, ans, sel, sc, rad⟩
  cases csv with
  | none => cases c <;> simp only [runScript] at h ⊢ <;> omega
  | some ch =>
    cases df with
    | some qs =>
      cases c <;> simp only [runScript, runQuiz, resetFields] at h ⊢ <;>
        first
          | (split_ifs at h ⊢ <;> first | rfl | omega | simp_all)
          | omega
          | rfl
          | simp_all
    | none =>
      cases hb : bank ch with
      | none => cases c <;> simp only [runScript, hb] at h ⊢ <;> omega
      | some df =>
        cases c <;>
          simp only [runScript, hb, runQuiz, resetFields] at h ⊢ <;>
          first
            | (split_ifs at h ⊢ <;> first | rfl | omega | simp_all)
            | omega
            | rfl
            | simp_all

/-- Lifted to a whole user interaction: when an interaction leaves
`current_question` one higher, `answered` is `True` afterwards. -/
theorem stepS_advance (bank : Nat → Option (List Question))
    (shuffle : List Question → List Question) (ev : Event) (s : St)
    (h : (stepS bank shuffle ev s).current_question
      = s.current_question + 1) :
    (stepS bank shuffle ev s).answered = true := by
  cases ev with
  | changeChoice l =>
    simp only [stepS, step] at h ⊢
    cases hr : s.radio with
    | none => simp only [hr] at h; omega
    | some p =>
      rcases p with ⟨ls, v⟩
      by_cases hv : v = l
      · simp only [hr, hv, reduceIte] at h; omega
      · simp only [hr, hv, reduceIte] at h ⊢
        have hf := runScript_noClick_frame bank shuffle
          { s with answered := false, radio := some (ls, l) }
        rw [hf.2.1] at h
        simp only [St.current_question] at h
        omega
  | selectChapter ch =>
    simp only [stepS, step] at h ⊢
    split at h <;> rename_i hflag
    · have hf := runScript_noClick_frame bank shuffle
        (runScript bank shuffle (eventClick (Event.selectChapter ch)) s).1
      rw [hf.2.1] at h
      simp only [hflag, if_true, reduceIte]
      rw [hf.2.2.1]
      exact runScript_advance bank shuffle _ s h
    · simp only [hflag, if_false, reduceIte]
      exact runScript_advance bank shuffle _ s h
  | clickSubmit =>
    simp only [stepS, step] at h ⊢
    split at h <;> rename_i hflag
    · have hf := runScript_noClick_frame bank shuffle
        (runScript bank shuffle (eventClick Event.clickSubmit) s).1
      rw [hf.2.1] at h
      simp only [hflag, if_true, reduceIte]
      rw [hf.2.2.1]
      exact runScript_advance bank shuffle _ s h
    · simp only [hflag, if_false, reduceIte]
      exact runScript_advance bank shuffle _ s h
  | clickNext =>
    simp only [stepS, step] at h ⊢
    split at h <;> rename_i hflag
    · have hf := runScript_noClick_frame bank shuffle
        (runScript bank shuffle (eventClick Event.clickNext) s).1
      rw [hf.2.1] at h
      simp only [hflag, if_true, reduceIte]
      rw [hf.2.2.1]
      exact runScript_advance bank shuffle _ s h
    · simp only [hflag, if_false, reduceIte]
      exact runScript_advance bank shuffle _ s h
  | clickBack =>
    simp only [stepS, step] at h ⊢
    split at h <;> rename_i hflag
    · have hf := runScript_noClick_frame bank shuffle
        (runScript bank shuffle (eventClick Event.clickBack) s).1
      rw [hf.2.1] at h
      simp only [hflag, if_true, reduceIte]
      rw [hf.2.2.1]
      exact runScript_advance bank shuffle _ s h
    · simp only [hflag, if_false, reduceIte]
      exact runScript_advance bank shuffle _ s h

/-! The claims. -/

/-- Claim C1, evaluated on the code at a failing input: selecting chapter 1,
going back to the menu, and selecting chapter 2 keeps the previous session's
shuffled list.  `shuffled_df` still holds chapter 1's questions (here the
identity draw of the shuffle), which is not a permutation of chapter 2's
loaded list, because neither Back-to-menu handler removes `shuffled_df` and
`quiz()` only shuffles when `shuffled_df` is absent.  The claimed fresh
permutation of the newly loaded chapter's list is never computed. -/
theorem stale_shuffle_after_reselect :
    (steps bank0 id [Event.selectChapter 1, Event.clickBack,
        Event.selectChapter 2] initSt).csv_file = some 2 ∧
    (steps bank0 id [Event.selectChapter 1, Event.clickBack,
        Event.selectChapter 2] initSt).shuffled_df = some [q1, q2] ∧
    bank0 2 = some [q3] ∧
    ¬ List.Perm [q1, q2] [q3] := by decide

/-- Claim C2, evaluated on the code at a failing input: after selecting
chapter 1 and pressing Back to Main Menu, every session field the handler
assigns is back at its initial value, but the stored shuffled question order
`shuffled_df` is not cleared: the reset is exactly `initSt` except for the
leaked `shuffled_df`. -/
theorem reset_leaves_shuffled_df :
    (steps bank0 id [Event.selectChapter 1, Event.clickBack] initSt)
      = { initSt with shuffled_df := some [q1, q2] } ∧
    (steps bank0 id [Event.selectChapter 1, Event.clickBack]
        initSt).shuffled_df ≠ none := by decide

/-- Claim C3: for every bank, every shuffle draw and every sequence of user
interactions from the initial state, `0 ≤ score ≤ position ≤
length(questionOrder)` holds after each transition. -/
theorem score_position_invariant (bank : Nat → Option (List Question))
    (shuffle : List Question → List Question) (evs : List Event) :
    0 ≤ (steps bank shuffle evs initSt).score ∧
    (steps bank shuffle evs initSt).score
      ≤ (steps bank shuffle evs initSt).current_question ∧
    (steps bank shuffle evs initSt).current_question
      ≤ ((steps bank shuffle evs initSt).shuffled_df.getD []).length := by
  have h := steps_inv bank shuffle evs initSt Inv_initSt
  exact ⟨Nat.zero_le _, h.1, h.2.1⟩

/-- Claim C4 as stated is false: a concrete run where the last interaction
advanced `position` from 0 to 1 and left `answered = true` (Submit both
advances the index and sets the flag, lines 120-123). -/
theorem answered_true_after_advance_cex :
    (steps bank0 id [Event.selectChapter 1] initSt).current_question
      = 0 ∧
    (steps bank0 id [Event.selectChapter 1, Event.clickSubmit]
        initSt).current_question = 1 ∧
    (steps bank0 id [Event.selectChapter 1, Event.clickSubmit]
        initSt).answered = true := by decide

/-- Claim C4 amended: `answered` is false immediately after a chapter
(re)selection from the menu, but immediately after an interaction that
advances `position` the flag is `true`, not false — the advance happens in
the Submit handler together with `answered = True`. -/
theorem answered_flag_after_transitions (bank : Nat → Option (List Question))
    (shuffle : List Question → List Question) :
    (∀ (s : St) (ch : Nat), s.csv_file = none →
      (stepS bank shuffle (Event.selectChapter ch) s).answered = false) ∧
    (∀ (ev : Event) (s : St),
      (stepS bank shuffle ev s).current_question = s.current_question + 1 →
      (stepS bank shuffle ev s).answered = true) := by
  constructor
  · intro s ch hcsv
    have h1 : (runScript bank shuffle (Click.chapter ch) s).2.2 = true ∧
        (runScript bank shuffle (Click.chapter ch) s).1.answered = false := by
      simp [runScript, hcsv]
    simp only [stepS, step, eventClick, h1.1, if_true, reduceIte]
    rw [(runScript_noClick_frame bank shuffle _).2.2.1]
    exact h1.2
  · intro ev s h
    exact stepS_advance bank shuffle ev s h

/-- Closed instance of the amended C4 at concrete inputs. -/
theorem answered_flag_after_transitions_witness :
    (stepS bank0 id (Event.selectChapter 1) initSt).answered = false ∧
    (stepS bank0 id Event.clickSubmit
        (steps bank0 id [Event.selectChapter 1] initSt)).answered = true :=
  ⟨(answered_flag_after_transitions bank0 id).1 initSt 1 rfl,
   (answered_flag_after_transitions bank0 id).2 Event.clickSubmit
     (steps bank0 id [Event.selectChapter 1] initSt) (by decide)⟩

/-- Claim C8, evaluated on the code at a failing input: selecting a chapter
whose CSV cannot be loaded surfaces the load error (the process does not
crash: the run returns normally after `st.error`/`st.stop`), but the
session does NOT remain in chapter selection: `csv_file` keeps the failed
chapter, so every later run goes straight back to `quiz()` and stops at the
same error — the menu is never rendered again and selecting a different
chapter has no effect. -/
theorem load_failure_leaves_chapter_selected :
    (step bank0 id (Event.selectChapter 99) initSt).2
      = [Output.loadError] ∧
    (step bank0 id (Event.selectChapter 99) initSt).1.csv_file
      = some 99 ∧
    (steps bank0 id [Event.selectChapter 99, Event.selectChapter 2]
        initSt).csv_file = some 99 ∧
    (steps bank0 id [Event.selectChapter 99, Event.selectChapter 2]
        initSt).shuffled_df = none := by decide

/-- Claim C5 as stated is false: a concrete run where Submit is processed
twice with no Next click in between, only radio-choice changes, and both
score and position change twice (0 to 1 to 2).  The choice-change callback
sets `answered = False`, re-enabling Submit for the already-advanced
index. -/
theorem double_submit_after_choice_change_cex :
    (steps bank0 id [Event.selectChapter 1, Event.clickSubmit]
        initSt).current_question = 1 ∧
    (steps bank0 id [Event.selectChapter 1, Event.clickSubmit]
        initSt).score = 1 ∧
    (steps bank0 id [Event.selectChapter 1, Event.clickSubmit,
        Event.changeChoice Label.B, Event.changeChoice Label.B,
        Event.clickSubmit] initSt).current_question = 2 ∧
    (steps bank0 id [Event.selectChapter 1, Event.clickSubmit,
        Event.changeChoice Label.B, Event.changeChoice Label.B,
        Event.clickSubmit] initSt).score = 2 := by decide

/-- Claim C5 amended: a second Submit while `answered` is still `true`
(no choice change in between) changes neither `score` nor
`current_question`, and leaves the flag set — the guard on line 120. -/
theorem second_submit_noop_when_answered (bank : Nat → Option (List Question))
    (shuffle : List Question → List Question) (s : St)
    (h : s.answered = true) :
    (stepS bank shuffle Event.clickSubmit s).score = s.score ∧
    (stepS bank shuffle Event.clickSubmit s).current_question
      = s.current_question ∧
    (stepS bank shuffle Event.clickSubmit s).answered = true := by
  rcases s with ⟨csv, df, pos, ans, sel, sc, rad⟩
  have hans : ans = true := h
  subst hans
  cases csv with
  | none => simp [stepS, step, eventClick, runScript]
  | some ch =>
    cases df with
    | some qs =>
      simp only [stepS, step, eventClick, runScript, runQuiz]
      split_ifs <;> simp_all
    | none =>
      cases hb : bank ch with
      | none => simp [stepS, step, eventClick, runScript, hb]
      | some df =>
        simp only [stepS, step, eventClick, runScript, hb, runQuiz]
        split_ifs <;> simp_all

/-- Closed instance of the amended C5 at a concrete answered state. -/
theorem second_submit_noop_when_answered_witness :
    (stepS bank0 id Event.clickSubmit
        (steps bank0 id [Event.selectChapter 1, Event.clickSubmit]
          initSt)).score
      = (steps bank0 id [Event.selectChapter 1, Event.clickSubmit]
          initSt).score ∧
    (stepS bank0 id Event.clickSubmit
        (steps bank0 id [Event.selectChapter 1, Event.clickSubmit]
          initSt)).current_question
      = (steps bank0 id [Event.selectChapter 1, Event.clickSubmit]
          initSt).current_question ∧
    (stepS bank0 id Event.clickSubmit
        (steps bank0 id [Event.selectChapter 1, Event.clickSubmit]
          initSt)).answered = true :=
  second_submit_noop_when_answered bank0 id
    (steps bank0 id [Event.selectChapter 1, Event.clickSubmit] initSt)
    (by decide)

/-- Claim C6 as stated is false: a concrete next-click with
`answered == true` and `position < length` after which `answered` is still
`true` (lines 148-151 never touch it) and `selectedLabel` is not left
cleared — the rerun re-assigns it from the radio control (line 111). -/
theorem next_leaves_answered_set_cex :
    (steps bank0 id [Event.selectChapter 1, Event.clickSubmit]
        initSt).answered = true ∧
    (steps bank0 id [Event.selectChapter 1, Event.clickSubmit]
        initSt).current_question
      < qlen (steps bank0 id [Event.selectChapter 1, Event.clickSubmit]
          initSt) ∧
    (steps bank0 id [Event.selectChapter 1, Event.clickSubmit,
        Event.clickNext] initSt).answered = true ∧
    (steps bank0 id [Event.selectChapter 1, Event.clickSubmit,
        Event.clickNext] initSt).selected_answer = some Label.A := by decide

/-- Claim C6 amended: the Next handler assigns `selectedLabel := none` and
requests a rerun, but it does not reset `answered`; across the whole
interaction `answered`, `position` and `score` are unchanged (the rerun
then re-assigns `selectedLabel` from the radio when a question is
displayed). -/
theorem next_click_clears_selection_only (bank : Nat → Option (List Question))
    (shuffle : List Question → List Question) (s : St) (ch : Nat)
    (qs : List Question) (hcsv : s.csv_file = some ch)
    (hdf : s.shuffled_df = some qs)
    (hlt : s.current_question < qs.length) (hans : s.answered = true) :
    (runScript bank shuffle Click.nextQ s).1.selected_answer = none ∧
    (runScript bank shuffle Click.nextQ s).1.answered = true ∧
    (runScript bank shuffle Click.nextQ s).2.2 = true ∧
    (stepS bank shuffle Event.clickNext s).answered = true ∧
    (stepS bank shuffle Event.clickNext s).current_question
      = s.current_question ∧
    (stepS bank shuffle Event.clickNext s).score = s.score := by
  have hrun : (runScript bank shuffle Click.nextQ s).1.selected_answer
        = none ∧
      (runScript bank shuffle Click.nextQ s).1.answered = true ∧
      (runScript bank shuffle Click.nextQ s).1.current_question
        = s.current_question ∧
      (runScript bank shuffle Click.nextQ s).1.score = s.score ∧
      (runScript bank shuffle Click.nextQ s).2.2 = true := by
    simp only [runScript, hcsv, hdf, runQuiz, hlt, if_true, reduceIte]
    simp [hans]
  have hf := runScript_noClick_frame bank shuffle
    (runScript bank shuffle Click.nextQ s).1
  refine ⟨hrun.1, hrun.2.1, hrun.2.2.2.2, ?_, ?_, ?_⟩ <;>
    simp only [stepS, step, eventClick, hrun.2.2.2.2, if_true, reduceIte]
  · rw [hf.2.2.1]
    exact hrun.2.1
  · rw [hf.2.1]
    exact hrun.2.2.1
  · rw [hf.2.2.2.1]
    exact hrun.2.2.2.1

/-- Closed instance of the amended C6 at a concrete answered state with a
question remaining. -/
theorem next_click_clears_selection_only_witness :
    (runScript bank0 id Click.nextQ
        (steps bank0 id [Event.selectChapter 1, Event.clickSubmit]
          initSt)).1.selected_answer = none ∧
    (runScript bank0 id Click.nextQ
        (steps bank0 id [Event.selectChapter 1, Event.clickSubmit]
          initSt)).1.answered = true ∧
    (runScript bank0 id Click.nextQ
        (steps bank0 id [Event.selectChapter 1, Event.clickSubmit]
          initSt)).2.2 = true ∧
    (stepS bank0 id Event.clickNext
        (steps bank0 id [Event.selectChapter 1, Event.clickSubmit]
          initSt)).answered = true ∧
    (stepS bank0 id Event.clickNext
        (steps bank0 id [Event.selectChapter 1, Event.clickSubmit]
          initSt)).current_question
      = (steps bank0 id [Event.selectChapter 1, Event.clickSubmit]
          initSt).current_question ∧
    (stepS bank0 id Event.clickNext
        (steps bank0 id [Event.selectChapter 1, Event.clickSubmit]
          initSt)).score
      = (steps bank0 id [Event.selectChapter 1, Event.clickSubmit]
          initSt).score :=
  next_click_clears_selection_only bank0 id
    (steps bank0 id [Event.selectChapter 1, Event.clickSubmit] initSt)
    1 [q1, q2] (by decide) (by decide) (by decide) (by decide)

/-- Claim C7 as stated is false: a concrete run where the question is
Answered and the user selects a new option, after which `answered` has
changed from `true` to `false` — the session is modified and submission is
re-enabled (the intended behavior of `on_choice_change`, lines 99-101). -/
theorem choice_change_while_answered_cex :
    (steps bank0 id [Event.selectChapter 1, Event.clickSubmit]
        initSt).answered = true ∧
    (steps bank0 id [Event.selectChapter 1, Event.clickSubmit,
        Event.changeChoice Label.B] initSt).answered = false := by decide

/-- Claim C7 amended: selecting a new option while the current question is
Answered is not a no-op — the `on_choice_change` callback sets
`answered = false`, re-enabling submission. -/
theorem choice_change_resets_answered (bank : Nat → Option (List Question))
    (shuffle : List Question → List Question) (s : St)
    (ls : List String) (v l : Label)
    (hr : s.radio = some (ls, v)) (hne : v ≠ l) (hans : s.answered = true) :
    (stepS bank shuffle (Event.changeChoice l) s).answered = false := by
  simp only [stepS, step, hr, hne, reduceIte]
  rw [(runScript_noClick_frame bank shuffle _).2.2.1]

/-- Closed instance of the amended C7 at a concrete answered state. -/
theorem choice_change_resets_answered_witness :
    (stepS bank0 id (Event.changeChoice Label.B)
        (steps bank0 id [Event.selectChapter 1, Event.clickSubmit]
          initSt)).answered = false :=
  choice_change_resets_answered bank0 id
    (steps bank0 id [Event.selectChapter 1, Event.clickSubmit] initSt)
    (questionLabels q1) Label.A Label.B (by decide) (by decide) (by decide)

/-- Claim C9: when Submit is processed on the question at pre-advance
index `k = current_question` (with a chapter selected, the list loaded,
and the guard `answered == false` passing), the position becomes `k + 1`,
and the feedback output — question text, correctness of the stored
selection against `correctAnswer`, and explanation — comes from
`questionOrder[k]`, the row extracted before the advance (lines 74-79),
not from the new position. -/
theorem submit_feedback_from_pre_advance_index
    (bank : Nat → Option (List Question))
    (shuffle : List Question → List Question) (s : St) (ch : Nat)
    (qs : List Question) (hcsv : s.csv_file = some ch)
    (hdf : s.shuffled_df = some qs)
    (hk : s.current_question < qs.length) (hans : s.answered = false) :
    (step bank shuffle Event.clickSubmit s).1.current_question
      = s.current_question + 1 ∧
    (step bank shuffle Event.clickSubmit s).2
      = [Output.feedback
          { text := (getQ qs s.current_question).text,
            correct := decide (radioValue s.radio
                (questionLabels (getQ qs s.current_question))
              = (getQ qs s.current_question).correctAnswer),
            explanation := (getQ qs s.current_question).explanation }] ∧
    (step bank shuffle Event.clickSubmit s).1.score
      = s.score + (if radioValue s.radio
            (questionLabels (getQ qs s.current_question))
          = (getQ qs s.current_question).correctAnswer then 1 else 0) := by
  simp only [step, eventClick, runScript, hcsv, hdf, runQuiz, hk, if_true,
    reduceIte]
  simp [hans]

/-- Closed instance of C9 at a concrete state: the first question of
chapter 1, answered with the default selection. -/
theorem submit_feedback_from_pre_advance_index_witness :
    (step bank0 id Event.clickSubmit
        (steps bank0 id [Event.selectChapter 1] initSt)).1.current_question
      = (steps bank0 id [Event.selectChapter 1] initSt).current_question
        + 1 ∧
    (step bank0 id Event.clickSubmit
        (steps bank0 id [Event.selectChapter 1] initSt)).2
      = [Output.feedback
          { text := (getQ [q1, q2]
              (steps bank0 id [Event.selectChapter 1]
                initSt).current_question).text,
            correct := decide (radioValue
                (steps bank0 id [Event.selectChapter 1] initSt).radio
                (questionLabels (getQ [q1, q2]
                  (steps bank0 id [Event.selectChapter 1]
                    initSt).current_question))
              = (getQ [q1, q2]
                  (steps bank0 id [Event.selectChapter 1]
                    initSt).current_question).correctAnswer),
            explanation := (getQ [q1, q2]
              (steps bank0 id [Event.selectChapter 1]
                initSt).current_question).explanation }] ∧
    (step bank0 id Event.clickSubmit
        (steps bank0 id [Event.selectChapter 1] initSt)).1.score
      = (steps bank0 id [Event.selectChapter 1] initSt).score
        + (if radioValue
              (steps bank0 id [Event.selectChapter 1] initSt).radio
              (questionLabels (getQ [q1, q2]
                (steps bank0 id [Event.selectChapter 1]
                  initSt).current_question))
            = (getQ [q1, q2]
                (steps bank0 id [Event.selectChapter 1]
                  initSt).current_question).correctAnswer
          then 1 else 0) :=
  submit_feedback_from_pre_advance_index bank0 id
    (steps bank0 id [Event.selectChapter 1] initSt) 1 [q1, q2]
    (by decide) (by decide) (by decide) (by decide)

/-- Claim C10: whenever a question is displayed (chapter selected, list
loaded, `position < length`), `selected_answer` is set — line 111 assigns
it on every render and the radio defaults to option A — and Submit with no
prior explicit option change succeeds and scores the answer as label A:
after selecting a chapter with a nonempty list, the selection is
`some Label.A`, and an immediate Submit locks the answer in, advances to
position 1, and scores 1 exactly when the first shuffled question's
`correctAnswer` is A. -/
theorem question_displayed_selection_defaults
    (bank : Nat → Option (List Question))
    (shuffle : List Question → List Question) :
    (∀ (evs : List Event) (qs : List Question),
      (steps bank shuffle evs initSt).csv_file ≠ none →
      (steps bank shuffle evs initSt).shuffled_df = some qs →
      (steps bank shuffle evs initSt).current_question < qs.length →
      (steps bank shuffle evs initSt).selected_answer ≠ none) ∧
    (∀ (ch : Nat) (df : List Question), bank ch = some df →
      0 < (shuffle df).length →
      (stepS bank shuffle (Event.selectChapter ch) initSt).selected_answer
        = some Label.A ∧
      (stepS bank shuffle Event.clickSubmit
          (stepS bank shuffle (Event.selectChapter ch) initSt)).answered
        = true ∧
      (stepS bank shuffle Event.clickSubmit
          (stepS bank shuffle (Event.selectChapter ch)
            initSt)).current_question = 1 ∧
      (stepS bank shuffle Event.clickSubmit
          (stepS bank shuffle (Event.selectChapter ch) initSt)).score
        = (if Label.A = (getQ (shuffle df) 0).correctAnswer
            then 1 else 0)) := by
  constructor
  · intro evs qs hcsv hdf hlt
    exact steps_selset bank shuffle evs initSt SelSet_initSt qs hcsv hdf hlt
  · intro ch df hb hlen
    have h1 : stepS bank shuffle (Event.selectChapter ch) initSt
        = ⟨some ch, some (shuffle df), 0, false, some Label.A, 0,
            some (questionLabels (getQ (shuffle df) 0), Label.A)⟩ := by
      simp only [stepS, step, eventClick, initSt, runScript, runQuiz, hb,
        hlen, if_true, reduceIte, radioValue]
    rw [h1]
    simp only [stepS, step, eventClick, runScript, runQuiz]
    simp [hlen, radioValue]

/-- Closed instance of C10 at a concrete chapter. -/
theorem question_displayed_selection_defaults_witness :
    (steps bank0 id [Event.selectChapter 1] initSt).selected_answer
      ≠ none ∧
    (stepS bank0 id (Event.selectChapter 1) initSt).selected_answer
      = some Label.A :=
  ⟨(question_displayed_selection_defaults bank0 id).1
      [Event.selectChapter 1] [q1, q2] (by decide) (by decide) (by decide),
   ((question_displayed_selection_defaults bank0 id).2 1 [q1, q2]
      (by decide) (by decide)).1⟩

end QuizApp
